import Mathlib

/-!
Shallow embedding of the wellness-agent core (diet engine, medically-aware
recipe recommender, collaborative-filtering models, hybrid blender) and
verification of the specification's claims about it.

Numeric columns and arithmetic are embedded over `ℚ`; Python's float
arithmetic is modelled as exact rational arithmetic.  Python string methods
(`lower`, `upper`, `strip`, `replace`) are modelled character-wise over the
string's character list.
-/

namespace Wellness

/-! ### String helpers

Pandas `Series.str.contains(needle, case=False)` and Python's
`needle in text.lower()` are substring tests; we model them over `List Char`.
-/

/-- `containsSub needle hay`: `needle` occurs as a contiguous sublist of `hay`. -/
def containsSub (needle : List Char) : List Char → Bool
  | [] => needle.isEmpty
  | c :: t => needle.isPrefixOf (c :: t) || containsSub needle t

/-- Python `s.lower()`. -/
def lowerStr (s : String) : String := ⟨s.data.map Char.toLower⟩

/-- Python `s.upper()`. -/
def upperStr (s : String) : String := ⟨s.data.map Char.toUpper⟩

/-- Case-insensitive substring test, as `str.contains(needle, case=False)`. -/
def substrCI (needle hay : String) : Bool :=
  containsSub (lowerStr needle).data (lowerStr hay).data

/-! ### Data model: recipe catalog rows

One row of the recipe catalog (`recipes_df`).  The fields mirror the columns
the source reads: `RecipeName`, `Cuisine`, `Diet`, `Course`,
`TotalTimeInMins`, `Ingredients`, and the per-serving nutrient columns.
`index` is the pandas row label, which survives filtering and column
selection and is what `recipe.name` returns downstream.
The catalog also notionally carries sugar / cholesterol / potassium per
serving (the constraint table defines ceilings for them); the source filter
never reads such columns, and we include them as fields so that claims about
those ceilings can be stated.
-/

structure Recipe where
  index : ℕ
  recipeName : String
  cuisine : String
  diet : String
  course : String
  totalTimeInMins : ℚ
  ingredients : String
  energy_per_serving : ℚ
  protein_per_serving : ℚ
  carbohydrate_per_serving : ℚ
  fat_per_serving : ℚ
  sodium_per_serving : ℚ
  sugar_per_serving : ℚ
  cholesterol_per_serving : ℚ
  potassium_per_serving : ℚ
  deriving DecidableEq, Repr

/-! ### medical_constraints.py -/

/-- One entry of `MEDICAL_CONSTRAINTS`: the optional keys a condition's dict
may carry. A key absent from the Python dict is `none` / `[]`. -/
structure MedicalConstraint where
  max_sodium_per_serving : Option ℚ := none
  max_carbs_per_serving : Option ℚ := none
  max_protein_per_serving : Option ℚ := none
  max_saturated_fat_per_serving : Option ℚ := none
  max_sugar_per_serving : Option ℚ := none
  max_cholesterol_per_serving : Option ℚ := none
  max_potassium_per_serving : Option ℚ := none
  required_diet : Option String := none
  avoid_ingredients : List String := []
  preferred_ingredients : List String := []
  deriving DecidableEq, Repr

def diabetesConstraints : MedicalConstraint :=
  { max_carbs_per_serving := some 45
    max_sugar_per_serving := some 15
    avoid_ingredients := ["white rice", "white bread", "sugar", "honey", "jaggery"]
    preferred_ingredients := ["whole grain", "quinoa", "brown rice", "oats", "barley"] }

def preDiabetesConstraints : MedicalConstraint :=
  { max_carbs_per_serving := some 50
    avoid_ingredients := ["white rice", "sugar", "refined flour"]
    preferred_ingredients := ["whole grain", "oats", "vegetables"] }

def hypertensionConstraints : MedicalConstraint :=
  { max_sodium_per_serving := some 600
    avoid_ingredients := ["salt", "soy sauce", "pickles", "processed meat", "papad"]
    preferred_ingredients := ["low sodium", "fresh herbs", "lemon", "garlic"] }

def heartDiseaseConstraints : MedicalConstraint :=
  { max_saturated_fat_per_serving := some 7
    max_cholesterol_per_serving := some 200
    max_sodium_per_serving := some 600
    avoid_ingredients := ["butter", "ghee", "cream", "full-fat cheese", "red meat", "coconut oil"]
    preferred_ingredients := ["olive oil", "fish", "lean chicken", "nuts", "avocado", "oats"] }

def highCholesterolConstraints : MedicalConstraint :=
  { max_cholesterol_per_serving := some 200
    max_saturated_fat_per_serving := some 7
    avoid_ingredients := ["egg yolk", "shrimp", "butter", "full-fat dairy", "organ meat"]
    preferred_ingredients := ["oats", "barley", "beans", "apples", "fish", "almonds"] }

def kidneyDiseaseConstraints : MedicalConstraint :=
  { max_protein_per_serving := some 20
    max_sodium_per_serving := some 500
    max_potassium_per_serving := some 200
    avoid_ingredients := ["beans", "lentils", "nuts", "cheese", "tomatoes", "bananas", "potatoes"]
    preferred_ingredients := ["rice", "cabbage", "cucumber", "apple", "white bread"] }

def celiacDiseaseConstraints : MedicalConstraint :=
  { required_diet := some "Gluten Free"
    avoid_ingredients := ["wheat", "barley", "rye", "oats", "bread", "pasta", "atta", "maida"] }

def lactoseIntoleranceConstraints : MedicalConstraint :=
  { avoid_ingredients := ["milk", "cheese", "yogurt", "butter", "cream", "paneer", "ghee", "curd"] }

/-- The `MEDICAL_CONSTRAINTS` dict, as a lookup from condition tag to entry. -/
def MEDICAL_CONSTRAINTS : String → Option MedicalConstraint
  | "diabetes" => some diabetesConstraints
  | "pre_diabetes" => some preDiabetesConstraints
  | "hypertension" => some hypertensionConstraints
  | "heart_disease" => some heartDiseaseConstraints
  | "high_cholesterol" => some highCholesterolConstraints
  | "kidney_disease" => some kidneyDiseaseConstraints
  | "celiac_disease" => some celiacDiseaseConstraints
  | "lactose_intolerance" => some lactoseIntoleranceConstraints
  | _ => none

/-! ### recipe_recommender.py: filter_by_medical_constraints -/

/-- One `if 'max_…' in constraints: filtered = filtered[col <= limit]` step. -/
def ceilingFilter (value : Recipe → ℚ) (lim : Option ℚ) (rs : List Recipe) : List Recipe :=
  match lim with
  | some limit => rs.filter (fun r => decide (value r ≤ limit))
  | none => rs

/-- The saturated-fat step: the source keeps recipes with
`fat_per_serving <= limit * 2` (total fat as proxy, limit doubled). -/
def satFatFilter (lim : Option ℚ) (rs : List Recipe) : List Recipe :=
  match lim with
  | some limit => rs.filter (fun r => decide (r.fat_per_serving ≤ limit * 2))
  | none => rs

/-- The `required_diet` step: exact equality on the `Diet` column. -/
def requiredDietFilter (req : Option String) (rs : List Recipe) : List Recipe :=
  match req with
  | some required_diet => rs.filter (fun r => r.diet == required_diet)
  | none => rs

/-- The `for ingredient in …: filtered = filtered[~contains(ingredient)]` loop
pattern, over an arbitrary per-term exclusion test. -/
def exclusionFold (test : Recipe → String → Bool) (terms : List String)
    (rs : List Recipe) : List Recipe :=
  terms.foldl (fun acc t => acc.filter (fun r => !(test r t))) rs

/-- Ingredient-text exclusion used by the medical filter. -/
def avoidTest (r : Recipe) (ingredient : String) : Bool :=
  substrCI ingredient r.ingredients

/-- The body of the `for condition in medical_conditions` loop of
`filter_by_medical_constraints` (an unknown condition `continue`s). -/
def applyConditionConstraints (rs : List Recipe) (condition : String) : List Recipe :=
  match MEDICAL_CONSTRAINTS condition with
  | none => rs
  | some c =>
    exclusionFold avoidTest c.avoid_ingredients
      (requiredDietFilter c.required_diet
        (satFatFilter c.max_saturated_fat_per_serving
          (ceilingFilter (·.protein_per_serving) c.max_protein_per_serving
            (ceilingFilter (·.carbohydrate_per_serving) c.max_carbs_per_serving
              (ceilingFilter (·.sodium_per_serving) c.max_sodium_per_serving rs)))))

/-- `MedicalAwareRecipeRecommender.filter_by_medical_constraints`. -/
def filter_by_medical_constraints (rs : List Recipe) (medical_conditions : List String) :
    List Recipe :=
  medical_conditions.foldl applyConditionConstraints rs

/-! ### Pass predicates -/

def ceilOk (v : ℚ) : Option ℚ → Bool
  | some l => decide (v ≤ l)
  | none => true

def satFatOk (fat : ℚ) : Option ℚ → Bool
  | some l => decide (fat ≤ l * 2)
  | none => true

def dietOk (diet : String) : Option String → Bool
  | some req => diet == req
  | none => true

/-- What the source filter actually guarantees for a surviving recipe. -/
def passesCondition (r : Recipe) (mc : MedicalConstraint) : Bool :=
  ceilOk r.sodium_per_serving mc.max_sodium_per_serving &&
  ceilOk r.carbohydrate_per_serving mc.max_carbs_per_serving &&
  ceilOk r.protein_per_serving mc.max_protein_per_serving &&
  satFatOk r.fat_per_serving mc.max_saturated_fat_per_serving &&
  dietOk r.diet mc.required_diet &&
  mc.avoid_ingredients.all (fun ing => !(avoidTest r ing))

/-- What claim C1 asserts of a surviving recipe: every numeric ceiling of the
entry holds (sodium, carbs, protein, saturated fat, sugar, cholesterol,
potassium), the required diet matches, and no avoid-ingredient occurs. -/
def claimedCeilings (r : Recipe) (mc : MedicalConstraint) : Bool :=
  ceilOk r.sodium_per_serving mc.max_sodium_per_serving &&
  ceilOk r.carbohydrate_per_serving mc.max_carbs_per_serving &&
  ceilOk r.protein_per_serving mc.max_protein_per_serving &&
  ceilOk r.fat_per_serving mc.max_saturated_fat_per_serving &&
  ceilOk r.sugar_per_serving mc.max_sugar_per_serving &&
  ceilOk r.cholesterol_per_serving mc.max_cholesterol_per_serving &&
  ceilOk r.potassium_per_serving mc.max_potassium_per_serving &&
  dietOk r.diet mc.required_diet &&
  mc.avoid_ingredients.all (fun ing => !(avoidTest r ing))

/-! ### Membership lemmas for the medical filter -/

theorem mem_ceilingFilter {v : Recipe → ℚ} {lim : Option ℚ} {rs : List Recipe} {r : Recipe}
    (h : r ∈ ceilingFilter v lim rs) : r ∈ rs ∧ ceilOk (v r) lim = true := by
  cases lim with
  | none => exact ⟨h, rfl⟩
  | some l =>
    simp only [ceilingFilter, List.mem_filter] at h
    exact ⟨h.1, by simpa [ceilOk] using h.2⟩

theorem mem_satFatFilter {lim : Option ℚ} {rs : List Recipe} {r : Recipe}
    (h : r ∈ satFatFilter lim rs) : r ∈ rs ∧ satFatOk r.fat_per_serving lim = true := by
  cases lim with
  | none => exact ⟨h, rfl⟩
  | some l =>
    simp only [satFatFilter, List.mem_filter] at h
    exact ⟨h.1, by simpa [satFatOk] using h.2⟩

theorem mem_requiredDietFilter {req : Option String} {rs : List Recipe} {r : Recipe}
    (h : r ∈ requiredDietFilter req rs) : r ∈ rs ∧ dietOk r.diet req = true := by
  cases req with
  | none => exact ⟨h, rfl⟩
  | some d =>
    simp only [requiredDietFilter, List.mem_filter] at h
    exact ⟨h.1, by simpa [dietOk] using h.2⟩

theorem mem_exclusionFold {test : Recipe → String → Bool} {terms : List String}
    {rs : List Recipe} {r : Recipe} (h : r ∈ exclusionFold test terms rs) :
    r ∈ rs ∧ ∀ t ∈ terms, test r t = false := by
  induction terms generalizing rs with
  | nil => exact ⟨h, by simp⟩
  | cons t ts ih =>
    have h' := ih h

    rcases h' with ⟨hmem, hall⟩
    rw [List.mem_filter] at hmem
    refine ⟨hmem.1, ?_⟩
    intro u hu
    rcases List.mem_cons.mp hu with rfl | hu
    · simpa using hmem.2
    · exact hall u hu

theorem mem_applyConditionConstraints {rs : List Recipe} {c : String} {r : Recipe}
    (h : r ∈ applyConditionConstraints rs c) :
    r ∈ rs ∧ ∀ mc, MEDICAL_CONSTRAINTS c = some mc → passesCondition r mc = true := by
  unfold applyConditionConstraints at h
  cases hc : MEDICAL_CONSTRAINTS c with
  | none => rw [hc] at h; exact ⟨h, by intro mc hmc; cases hmc⟩
  | some mc =>
    rw [hc] at h
    obtain ⟨h5, havoid⟩ := mem_exclusionFold h
    obtain ⟨h4, hdiet⟩ := mem_requiredDietFilter h5
    obtain ⟨h3, hfat⟩ := mem_satFatFilter h4
    obtain ⟨h2, hprot⟩ := mem_ceilingFilter h3
    obtain ⟨h1, hcarb⟩ := mem_ceilingFilter h2
    obtain ⟨h0, hsod⟩ := mem_ceilingFilter h1
    refine ⟨h0, ?_⟩
    intro mc' hmc'
    obtain rfl : mc = mc' := by injection hmc'
    simp only [passesCondition, Bool.and_eq_true]
    refine ⟨⟨⟨⟨⟨hsod, hcarb⟩, hprot⟩, hfat⟩, hdiet⟩, ?_⟩
    rw [List.all_eq_true]
    intro ing hing
    simp [havoid ing hing]

theorem mem_filter_by_medical_constraints {rs : List Recipe} {conds : List String} {r : Recipe}
    (h : r ∈ filter_by_medical_constraints rs conds) :
    r ∈ rs ∧ ∀ c ∈ conds, ∀ mc, MEDICAL_CONSTRAINTS c = some mc →
      passesCondition r mc = true := by
  induction conds generalizing rs with
  | nil => exact ⟨h, by simp⟩
  | cons c cs ih =>
    have h' := ih h
    rcases h' with ⟨hmem, hall⟩
    have hx := mem_applyConditionConstraints hmem
    refine ⟨hx.1, ?_⟩
    intro c' hc' mc hmc
    rcases List.mem_cons.mp hc' with rfl | hc'
    · exact hx.2 mc hmc
    · exact hall c' hc' mc hmc

/-- Claim C1 demands the sugar ceiling too; this recipe survives the
diabetes filter while violating it. -/
def sugarBombRecipe : Recipe :=
  { index := 0
    recipeName := "Oat Halwa"
    cuisine := "Indian"
    diet := "Vegetarian"
    course := "Dessert"
    totalTimeInMins := 30
    ingredients := "oats, milk, dates"
    energy_per_serving := 300
    protein_per_serving := 8
    carbohydrate_per_serving := 40
    fat_per_serving := 10
    sodium_per_serving := 100
    sugar_per_serving := 100
    cholesterol_per_serving := 0
    potassium_per_serving := 150 }

/-- A recipe that genuinely satisfies every enforced diabetes constraint. -/
def safeDiabetesRecipe : Recipe :=
  { index := 1
    recipeName := "Quinoa Salad"
    cuisine := "Continental"
    diet := "Vegetarian"
    course := "Lunch"
    totalTimeInMins := 20
    ingredients := "quinoa, cucumber, lemon"
    energy_per_serving := 250
    protein_per_serving := 10
    carbohydrate_per_serving := 30
    fat_per_serving := 6
    sodium_per_serving := 120
    sugar_per_serving := 4
    cholesterol_per_serving := 0
    potassium_per_serving := 180 }

/-- C1 counterexample: `sugarBombRecipe` survives
`filter_by_medical_constraints` for `["diabetes"]`, yet the diabetes entry
defines `max_sugar_per_serving = 15` and the recipe's sugar is 100, so the
claimed "every numeric ceiling" property is false on this input. -/
theorem filter_ignores_sugar_ceiling :
    filter_by_medical_constraints [sugarBombRecipe] ["diabetes"] = [sugarBombRecipe] ∧
    (MEDICAL_CONSTRAINTS "diabetes").bind (·.max_sugar_per_serving) = some 15 ∧
    sugarBombRecipe.sugar_per_serving = 100 ∧
    claimedCeilings sugarBombRecipe diabetesConstraints = false := by
  refine ⟨by decide, by decide, by decide, by decide⟩

/-- C1 (amended): a recipe surviving `filter_by_medical_constraints` satisfies,
for every condition of the list present in the table, exactly the ceilings the
code enforces: max sodium, max carbs, max protein, total fat at most twice the
saturated-fat ceiling, the required diet exactly, and no avoid-ingredient as a
case-insensitive substring of its ingredient text.  (Sugar, cholesterol and
potassium ceilings are not enforced.) -/
theorem medical_filter_enforces_coded_ceilings
    (rs : List Recipe) (conds : List String) (r : Recipe)
    (h : r ∈ filter_by_medical_constraints rs conds)
    (c : String) (hc : c ∈ conds) (mc : MedicalConstraint)
    (hmc : MEDICAL_CONSTRAINTS c = some mc) :
    r ∈ rs ∧ passesCondition r mc = true :=
  ⟨(mem_filter_by_medical_constraints h).1,
   (mem_filter_by_medical_constraints h).2 c hc mc hmc⟩

theorem medical_filter_enforces_coded_ceilings_witness :
    safeDiabetesRecipe ∈ [sugarBombRecipe, safeDiabetesRecipe] ∧
    passesCondition safeDiabetesRecipe diabetesConstraints = true :=
  medical_filter_enforces_coded_ceilings
    [sugarBombRecipe, safeDiabetesRecipe] ["diabetes"] safeDiabetesRecipe
    (by decide) "diabetes" (by decide) diabetesConstraints (by decide)

/-- C9: a condition list containing only tags absent from
`MEDICAL_CONSTRAINTS` leaves the candidate set unchanged. -/
theorem unknown_conditions_are_ignored
    (rs : List Recipe) (conds : List String)
    (h : ∀ c ∈ conds, MEDICAL_CONSTRAINTS c = none) :
    filter_by_medical_constraints rs conds = rs := by
  induction conds generalizing rs with
  | nil => rfl
  | cons c cs ih =>
    have hc : MEDICAL_CONSTRAINTS c = none := h c (List.mem_cons_self c cs)
    have hid : applyConditionConstraints rs c = rs := by
      unfold applyConditionConstraints
      rw [hc]
    calc filter_by_medical_constraints rs (c :: cs)
        = filter_by_medical_constraints (applyConditionConstraints rs c) cs := rfl
      _ = applyConditionConstraints rs c := ih _ (fun d hd => h d (List.mem_cons_of_mem c hd))
      _ = rs := hid

theorem unknown_conditions_are_ignored_witness :
    filter_by_medical_constraints [sugarBombRecipe, safeDiabetesRecipe]
      ["pregnancy", "gout"] = [sugarBombRecipe, safeDiabetesRecipe] :=
  unknown_conditions_are_ignored _ _ (by decide)

/-! ### recipe_recommender.py: preference filtering -/

/-- Exclusion test used for disliked ingredients and allergens: the term may
occur in the recipe name or in the ingredient text (the stricter allergen
branch would additionally check an `ingredientsname` column, which does not
exist in the embedded catalog, so the check reduces to the same two columns). -/
def nameOrIngredientsTest (r : Recipe) (term : String) : Bool :=
  substrCI term r.recipeName || substrCI term r.ingredients

/-- `MedicalAwareRecipeRecommender.filter_by_preferences`.  Python's
truthiness on the optional list arguments (`None` or `[]` skips the step) is
modelled by `List.isEmpty` on a plain list. -/
def filter_by_preferences (rs : List Recipe) (preferred_cuisines disliked_ingredients
    allergies : List String) : List Recipe :=
  let filtered := rs
  let filtered := if !preferred_cuisines.isEmpty then
      filtered.filter (fun r => preferred_cuisines.contains r.cuisine)
    else filtered
  let filtered := if !disliked_ingredients.isEmpty then
      exclusionFold nameOrIngredientsTest disliked_ingredients filtered
    else filtered
  let filtered := if !allergies.isEmpty then
      exclusionFold nameOrIngredientsTest allergies filtered
    else filtered
  filtered

/-! ### recipe_recommender.py: scoring -/

/-- The slice of the `user_targets` dict that the recommender reads:
`course`, `diet`, `max_time` (or `max_time_mins`), and the four nutrition
targets. -/
structure UserTargets where
  course : String
  diet : String
  max_time : ℚ
  calories : ℚ
  protein_g : ℚ
  carbs_g : ℚ
  fat_g : ℚ
  deriving DecidableEq, Repr

/-- `MedicalAwareRecipeRecommender.calculate_match_score`. -/
def calculate_match_score (recipe : Recipe) (target : UserTargets) : ℚ :=
  let target_cal := max target.calories 1
  let target_protein := max target.protein_g 1
  let target_carbs := max target.carbs_g 1
  let target_fat := max target.fat_g 1
  let cal_diff := |recipe.energy_per_serving - target.calories| / target_cal
  let protein_diff := |recipe.protein_per_serving - target.protein_g| / target_protein
  let carbs_diff := |recipe.carbohydrate_per_serving - target.carbs_g| / target_carbs
  let fat_diff := |recipe.fat_per_serving - target.fat_g| / target_fat
  let cal_diff := min cal_diff 2.0
  let protein_diff := min protein_diff 2.0
  let carbs_diff := min carbs_diff 2.0
  let fat_diff := min fat_diff 2.0
  let weighted_diff :=
    cal_diff * 0.30 + protein_diff * 0.40 + carbs_diff * 0.20 + fat_diff * 0.10
  max 0 (100 - weighted_diff * 50)

/-- `MedicalAwareRecipeRecommender.calculate_preference_bonus`: +0.05 per
preferred-ingredient substring found in the lower-cased ingredient text,
capped at 0.20. -/
def calculate_preference_bonus (recipe : Recipe) (medical_conditions : List String) : ℚ :=
  let bonus := medical_conditions.foldl (fun bonus condition =>
    match MEDICAL_CONSTRAINTS condition with
    | none => bonus
    | some constraints =>
      constraints.preferred_ingredients.foldl
        (fun b ingredient =>
          if containsSub ingredient.data (lowerStr recipe.ingredients).data then b + 0.05
          else b)
        bonus) 0
  min bonus 0.20

/-- `MedicalAwareRecipeRecommender.analyze_protein_gap`. -/
structure GapAnalysis where
  gap : ℚ
  status : String
  suggestion : Option String
  deriving DecidableEq, Repr

def analyze_protein_gap (recipe : Recipe) (target_protein : ℚ) : GapAnalysis :=
  let gap := target_protein - recipe.protein_per_serving
  if gap ≤ 2 then
    { gap := gap, status := "excellent", suggestion := none }
  else if gap ≤ 5 then
    { gap := gap, status := "good", suggestion := some "Add 1 boiled egg (+6g protein)" }
  else if gap ≤ 10 then
    { gap := gap, status := "moderate",
      suggestion := some "Add 50g paneer (+9g protein) or 1 cup Greek yogurt (+15g)" }
  else
    { gap := gap, status := "significant",
      suggestion := some "Add 2 eggs + 50g paneer (+15g protein) or protein shake (+20g)" }

/-- The per-recipe score computed in `recommend`'s scoring loop: the match
score, multiplied by `(1 + bonus)` when medical conditions are present, then
clamped by `min(score, 100)` on append. -/
def scoredValue (recipe : Recipe) (targets : UserTargets)
    (medical_conditions : List String) : ℚ :=
  let score := calculate_match_score recipe targets
  let score := if !medical_conditions.isEmpty then
      score * (1 + calculate_preference_bonus recipe medical_conditions)
    else score
  min score 100

/-! ### C5: the final per-recipe score is always in [0, 100] -/

theorem le_foldl_of_le_step {α : Type} (f : ℚ → α → ℚ) (hf : ∀ b x, b ≤ f b x) :
    ∀ (l : List α) (b : ℚ), b ≤ l.foldl f b := by
  intro l
  induction l with
  | nil => intro b; exact le_refl b
  | cons x xs ih => intro b; exact le_trans (hf b x) (ih (f b x))

theorem preference_bonus_nonneg (recipe : Recipe) (conds : List String) :
    0 ≤ calculate_preference_bonus recipe conds := by
  unfold calculate_preference_bonus
  refine le_min ?_ (by norm_num)
  refine le_foldl_of_le_step _ ?_ conds 0
  intro b c
  cases MEDICAL_CONSTRAINTS c with
  | none => exact le_refl b
  | some constraints =>
    refine le_foldl_of_le_step _ ?_ constraints.preferred_ingredients b
    intro b' ing
    by_cases hi : containsSub ing.data (lowerStr recipe.ingredients).data = true
    · simp only [hi, if_true]; linarith
    · simp only [Bool.not_eq_true] at hi
      simp only [hi, Bool.false_eq_true, if_false]
      exact le_refl b'

theorem match_score_nonneg (recipe : Recipe) (target : UserTargets) :
    0 ≤ calculate_match_score recipe target :=
  le_max_left 0 _

theorem match_score_le_100 (recipe : Recipe) (target : UserTargets) :
    calculate_match_score recipe target ≤ 100 := by
  unfold calculate_match_score
  refine max_le (by norm_num) ?_
  have habs : ∀ a b : ℚ, 0 ≤ min (|a| / max b 1) 2.0 := by
    intro a b
    refine le_min (div_nonneg (abs_nonneg a) ?_) (by norm_num)
    exact le_trans (by norm_num) (le_max_right b 1)
  have h1 := habs (recipe.energy_per_serving - target.calories) target.calories
  have h2 := habs (recipe.protein_per_serving - target.protein_g) target.protein_g
  have h3 := habs (recipe.carbohydrate_per_serving - target.carbs_g) target.carbs_g
  have h4 := habs (recipe.fat_per_serving - target.fat_g) target.fat_g
  linarith [h1, h2, h3, h4]

/-- C5: the content-based match score with medical preference bonus, as
appended by `recommend` (`min(score * (1 + bonus), 100)`), always lies in
`[0, 100]`, for every recipe, target and condition list. -/
theorem final_match_score_in_range (recipe : Recipe) (targets : UserTargets)
    (medical_conditions : List String) :
    0 ≤ scoredValue recipe targets medical_conditions ∧
    scoredValue recipe targets medical_conditions ≤ 100 := by
  unfold scoredValue
  constructor
  · refine le_min ?_ (by norm_num)
    by_cases hc : medical_conditions.isEmpty
    · simp only [hc, Bool.not_true, Bool.false_eq_true, if_false]
      exact match_score_nonneg recipe targets
    · simp only [Bool.not_eq_true] at hc
      simp only [hc, Bool.not_false, if_true]
      have hb := preference_bonus_nonneg recipe medical_conditions
      have hs := match_score_nonneg recipe targets
      nlinarith
  · exact min_le_right _ 100

/-! ### A structurally-recursive descending sort

`DataFrame.sort_values(column, ascending=False)` re-orders rows by a numeric
key, descending.  We model it with an insertion sort by key so that concrete
instances reduce in the kernel.
-/

def insertDescBy {α : Type} (key : α → ℚ) (x : α) : List α → List α
  | [] => [x]
  | y :: ys => if key y ≤ key x then x :: y :: ys else y :: insertDescBy key x ys

def sortDescBy {α : Type} (key : α → ℚ) : List α → List α
  | [] => []
  | x :: xs => insertDescBy key x (sortDescBy key xs)

theorem mem_insertDescBy {α : Type} (key : α → ℚ) (x : α) (l : List α) (a : α) :
    a ∈ insertDescBy key x l ↔ a = x ∨ a ∈ l := by
  induction l with
  | nil => simp [insertDescBy]
  | cons y ys ih =>
    by_cases h : key y ≤ key x
    · simp [insertDescBy, h]
    · simp only [insertDescBy, h, if_false, List.mem_cons, ih]
      tauto

theorem length_insertDescBy {α : Type} (key : α → ℚ) (x : α) (l : List α) :
    (insertDescBy key x l).length = l.length + 1 := by
  induction l with
  | nil => rfl
  | cons y ys ih =>
    by_cases h : key y ≤ key x
    · simp [insertDescBy, h]
    · simp [insertDescBy, h, ih]

theorem mem_sortDescBy {α : Type} (key : α → ℚ) (l : List α) (a : α) :
    a ∈ sortDescBy key l ↔ a ∈ l := by
  induction l with
  | nil => simp [sortDescBy]
  | cons x xs ih => simp [sortDescBy, mem_insertDescBy, ih]

theorem length_sortDescBy {α : Type} (key : α → ℚ) (l : List α) :
    (sortDescBy key l).length = l.length := by
  induction l with
  | nil => rfl
  | cons x xs ih => simp [sortDescBy, length_insertDescBy, ih]

theorem pairwise_insertDescBy {α : Type} (key : α → ℚ) (x : α) (l : List α)
    (h : l.Pairwise (fun a b => key b ≤ key a)) :
    (insertDescBy key x l).Pairwise (fun a b => key b ≤ key a) := by
  induction l with
  | nil => simp [insertDescBy]
  | cons y ys ih =>
    rcases List.pairwise_cons.mp h with ⟨hy, hys⟩
    unfold insertDescBy
    by_cases hc : key y ≤ key x
    · rw [if_pos hc]
      refine List.pairwise_cons.mpr ⟨?_, h⟩
      intro b hb
      rcases List.mem_cons.mp hb with rfl | hb
      · exact hc
      · exact le_trans (hy b hb) hc
    · rw [if_neg hc]
      refine List.pairwise_cons.mpr ⟨?_, ih hys⟩
      intro b hb
      rcases (mem_insertDescBy key x ys b).mp hb with rfl | hb
      · exact le_of_lt (lt_of_not_le hc)
      · exact hy b hb

theorem pairwise_sortDescBy {α : Type} (key : α → ℚ) (l : List α) :
    (sortDescBy key l).Pairwise (fun a b => key b ≤ key a) := by
  induction l with
  | nil => simp [sortDescBy]
  | cons x xs ih => exact pairwise_insertDescBy key x _ ih

/-! ### recipe_recommender.py: the recommend pipeline -/

/-- The row shape returned by `recommend`: the selected display columns plus
the three computed columns; `index` is the surviving pandas row label. -/
structure RecRow where
  index : ℕ
  recipeName : String
  cuisine : String
  diet : String
  totalTimeInMins : ℚ
  energy_per_serving : ℚ
  protein_per_serving : ℚ
  carbohydrate_per_serving : ℚ
  fat_per_serving : ℚ
  sodium_per_serving : ℚ
  match_score : ℚ
  protein_gap : ℚ
  protein_suggestion : Option String
  deriving DecidableEq, Repr

/-- `DIET_MAPPING` (the `'non-vegetarian'` key is unreachable after the
hyphen-to-space normalization but is kept verbatim). -/
def DIET_MAPPING : String → Option (List String)
  | "vegetarian" => some ["Vegetarian", "High Protein Vegetarian"]
  | "non-vegetarian" => some ["Non Vegeterian", "High Protein Non Vegetarian"]
  | "non vegetarian" => some ["Non Vegeterian", "High Protein Non Vegetarian"]
  | "vegan" => some ["Vegan"]
  | "eggetarian" => some ["Eggetarian"]
  | "diabetic" => some ["Diabetic Friendly"]
  | "diabetic friendly" => some ["Diabetic Friendly"]
  | "gluten free" => some ["Gluten Free"]
  | "sugar free" => some ["Sugar Free Diet"]
  | "no onion no garlic" => some ["No Onion No Garlic (Sattvic)"]
  | _ => none

/-- `diet.lower().replace('-', ' ').strip()` (character-wise model of the
single-character replacement and whitespace strip). -/
def normalizeDietInput (s : String) : String :=
  let cs := (s.data.map Char.toLower).map (fun c => if c = '-' then ' ' else c)
  ⟨((cs.dropWhile (·.isWhitespace)).reverse.dropWhile (·.isWhitespace)).reverse⟩

/-- Course matching: `'snack' in course.lower()` triggers the multi-course
regex `'Snack|Appetizer|Starter|Side|Dessert'`; otherwise the course string
itself is matched case-insensitively. -/
def courseMatches (course recipeCourse : String) : Bool :=
  if substrCI "snack" course then
    substrCI "Snack" recipeCourse || substrCI "Appetizer" recipeCourse ||
    substrCI "Starter" recipeCourse || substrCI "Side" recipeCourse ||
    substrCI "Dessert" recipeCourse
  else
    substrCI course recipeCourse

/-- Step 1 of `recommend`: course, diet and time filtering.  The NaN-row
removal is a no-op here because the embedded columns are total.  `dietFallback`
tells whether the substring fallback for an unmapped diet is applied (it is on
the first pass, but not on the zero-result retry). -/
def basicFilter (recipes : List Recipe) (user_targets : UserTargets)
    (dietFallback : Bool) : List Recipe :=
  let filtered := recipes
  let filtered := filtered.filter (fun r => courseMatches user_targets.course r.course)
  let filtered := match DIET_MAPPING (normalizeDietInput user_targets.diet) with
    | some diet_values => filtered.filter (fun r : Recipe => diet_values.contains r.diet)
    | none =>
      if dietFallback then filtered.filter (fun r => substrCI user_targets.diet r.diet)
      else filtered
  filtered.filter (fun r => decide (r.totalTimeInMins ≤ user_targets.max_time))

/-- The row constructed for one surviving recipe in `recommend`'s scoring
loop followed by the final column selection. -/
def scoreRow (r : Recipe) (targets : UserTargets) (medical_conditions : List String) :
    RecRow :=
  let ga := analyze_protein_gap r targets.protein_g
  { index := r.index
    recipeName := r.recipeName
    cuisine := r.cuisine
    diet := r.diet
    totalTimeInMins := r.totalTimeInMins
    energy_per_serving := r.energy_per_serving
    protein_per_serving := r.protein_per_serving
    carbohydrate_per_serving := r.carbohydrate_per_serving
    fat_per_serving := r.fat_per_serving
    sodium_per_serving := r.sodium_per_serving
    match_score := scoredValue r targets medical_conditions
    protein_gap := ga.gap
    protein_suggestion := ga.suggestion }

/-- Steps 1–2 of `recommend`: basic filters, then preference filters with the
one-shot cuisine-dropping retry on an empty result. -/
def candidatesAfterPreferences (recipes : List Recipe) (user_targets : UserTargets)
    (preferred_cuisines disliked_ingredients allergies : List String) : List Recipe :=
  let afterPrefs := filter_by_preferences (basicFilter recipes user_targets true)
    preferred_cuisines disliked_ingredients allergies
  if afterPrefs.isEmpty then
    -- retry without the cuisine filter (and, as in the source, without the
    -- unmapped-diet substring fallback)
    filter_by_preferences (basicFilter recipes user_targets false)
      [] disliked_ingredients allergies
  else afterPrefs

/-- Step 3 of `recommend`: the medical safety constraints (applied only when
the condition list is truthy, i.e. non-empty). -/
def candidateSet (recipes : List Recipe) (user_targets : UserTargets)
    (medical_conditions preferred_cuisines disliked_ingredients allergies : List String) :
    List Recipe :=
  let filtered := candidatesAfterPreferences recipes user_targets
    preferred_cuisines disliked_ingredients allergies
  if !medical_conditions.isEmpty then
    filter_by_medical_constraints filtered medical_conditions
  else filtered

/-- `MedicalAwareRecipeRecommender.recommend`: basic filters, preference
filters with the one-shot cuisine-dropping retry, medical constraints,
scoring, descending sort on `match_score`, and `head(top_n)`. -/
def recommend (recipes : List Recipe) (user_targets : UserTargets)
    (medical_conditions preferred_cuisines disliked_ingredients allergies : List String)
    (top_n : ℕ) : List RecRow :=
  let filtered := candidateSet recipes user_targets medical_conditions
    preferred_cuisines disliked_ingredients allergies
  if filtered.isEmpty then []
  else
    (sortDescBy (fun row : RecRow => row.match_score)
      (filtered.map (fun r => scoreRow r user_targets medical_conditions))).take top_n

/-! ### C7: the retry drops only the cuisine preference; allergen and
disliked-ingredient exclusions survive every path to the output -/

theorem mem_optionalExclusion {terms : List String} {rs : List Recipe} {r : Recipe}
    (h : r ∈ (if !terms.isEmpty then exclusionFold nameOrIngredientsTest terms rs else rs)) :
    r ∈ rs ∧ ∀ t ∈ terms, nameOrIngredientsTest r t = false := by
  cases terms with
  | nil =>
    rw [if_neg (by simp)] at h
    exact ⟨h, by simp⟩
  | cons t ts =>
    rw [if_pos (by simp)] at h
    exact mem_exclusionFold h

theorem mem_of_ite_filter {p : Recipe → Bool} {c : Prop} [Decidable c]
    {rs : List Recipe} {r : Recipe}
    (h : r ∈ (if c then rs.filter p else rs)) : r ∈ rs := by
  by_cases hc : c
  · rw [if_pos hc] at h; exact (List.mem_filter.mp h).1
  · rw [if_neg hc] at h; exact h

theorem mem_filter_by_preferences {rs : List Recipe} {cs ds as : List String} {r : Recipe}
    (h : r ∈ filter_by_preferences rs cs ds as) :
    r ∈ rs ∧ (∀ d ∈ ds, nameOrIngredientsTest r d = false) ∧
      (∀ a ∈ as, nameOrIngredientsTest r a = false) := by
  unfold filter_by_preferences at h
  obtain ⟨h2, hall⟩ := mem_optionalExclusion h
  obtain ⟨h1, hdis⟩ := mem_optionalExclusion h2
  exact ⟨mem_of_ite_filter h1, hdis, hall⟩

theorem mem_basicFilter {recipes : List Recipe} {t : UserTargets} {fb : Bool} {r : Recipe}
    (h : r ∈ basicFilter recipes t fb) : r ∈ recipes := by
  unfold basicFilter at h
  have h2 := (List.mem_filter.mp h).1
  have h3 : r ∈ recipes.filter (fun r => courseMatches t.course r.course) := by
    cases hd : DIET_MAPPING (normalizeDietInput t.diet) with
    | some diet_values =>
      rw [hd] at h2
      exact (List.mem_filter.mp h2).1
    | none =>
      rw [hd] at h2
      exact mem_of_ite_filter h2
  exact (List.mem_filter.mp h3).1

theorem mem_candidatesAfterPreferences {recipes : List Recipe} {t : UserTargets}
    {cs ds as : List String} {r : Recipe}
    (h : r ∈ candidatesAfterPreferences recipes t cs ds as) :
    r ∈ recipes ∧ (∀ d ∈ ds, nameOrIngredientsTest r d = false) ∧
      (∀ a ∈ as, nameOrIngredientsTest r a = false) := by
  unfold candidatesAfterPreferences at h
  by_cases he : (filter_by_preferences (basicFilter recipes t true) cs ds as).isEmpty
  · rw [if_pos he] at h
    obtain ⟨hb, hdis, hall⟩ := mem_filter_by_preferences h
    exact ⟨mem_basicFilter hb, hdis, hall⟩
  · rw [if_neg he] at h
    obtain ⟨hb, hdis, hall⟩ := mem_filter_by_preferences h
    exact ⟨mem_basicFilter hb, hdis, hall⟩

theorem mem_candidateSet {recipes : List Recipe} {t : UserTargets}
    {conds cs ds as : List String} {r : Recipe}
    (h : r ∈ candidateSet recipes t conds cs ds as) :
    r ∈ recipes ∧ (∀ d ∈ ds, nameOrIngredientsTest r d = false) ∧
      (∀ a ∈ as, nameOrIngredientsTest r a = false) := by
  unfold candidateSet at h
  by_cases hc : (!conds.isEmpty) = true
  · rw [if_pos hc] at h
    exact mem_candidatesAfterPreferences (mem_filter_by_medical_constraints h).1
  · rw [if_neg hc] at h
    exact mem_candidatesAfterPreferences h

/-- C7: when the full preference pass yields zero candidates the pipeline
retries exactly once with `preferred_cuisines` dropped but the
disliked-ingredient and allergen exclusions still applied; consequently no
returned row can come from a recipe whose name or ingredient text contains an
allergen (or disliked ingredient) as a case-insensitive substring. -/
theorem recommend_never_relaxes_allergens
    (recipes : List Recipe) (user_targets : UserTargets)
    (medical_conditions preferred_cuisines disliked_ingredients allergies : List String)
    (top_n : ℕ) :
    ((filter_by_preferences (basicFilter recipes user_targets true)
        preferred_cuisines disliked_ingredients allergies).isEmpty →
      candidatesAfterPreferences recipes user_targets
          preferred_cuisines disliked_ingredients allergies =
        filter_by_preferences (basicFilter recipes user_targets false)
          [] disliked_ingredients allergies) ∧
    ∀ row ∈ recommend recipes user_targets medical_conditions preferred_cuisines
        disliked_ingredients allergies top_n,
      ∃ r : Recipe, r ∈ recipes ∧ row = scoreRow r user_targets medical_conditions ∧
        (∀ a ∈ allergies, nameOrIngredientsTest r a = false) ∧
        (∀ d ∈ disliked_ingredients, nameOrIngredientsTest r d = false) := by
  constructor
  · intro he
    unfold candidatesAfterPreferences
    rw [if_pos he]
  · intro row hrow
    unfold recommend at hrow
    by_cases hM : (candidateSet recipes user_targets medical_conditions preferred_cuisines
        disliked_ingredients allergies).isEmpty
    · rw [if_pos hM] at hrow
      cases hrow
    · rw [if_neg hM] at hrow
      have hsorted := List.take_subset top_n _ hrow
      rw [mem_sortDescBy] at hsorted
      obtain ⟨r, hrM, hrf⟩ := List.mem_map.mp hsorted
      obtain ⟨hrrec, hdis, hall⟩ := mem_candidateSet hrM
      exact ⟨r, hrrec, hrf.symm, hall, hdis⟩

/-- Concrete preference targets used by witnesses. -/
def lunchTargets : UserTargets :=
  { course := "Lunch"
    diet := "vegetarian"
    max_time := 60
    calories := 400
    protein_g := 20
    carbs_g := 40
    fat_g := 15 }

theorem recommend_never_relaxes_allergens_witness :
    (candidatesAfterPreferences [safeDiabetesRecipe] lunchTargets
        ["Italian"] [] ["peanut"] =
      filter_by_preferences (basicFilter [safeDiabetesRecipe] lunchTargets false)
        [] [] ["peanut"]) ∧
    ∃ r : Recipe, r ∈ [safeDiabetesRecipe] ∧
      scoreRow safeDiabetesRecipe lunchTargets [] = scoreRow r lunchTargets [] ∧
      (∀ a ∈ ["peanut"], nameOrIngredientsTest r a = false) ∧
      (∀ d ∈ ([] : List String), nameOrIngredientsTest r d = false) :=
  have h := recommend_never_relaxes_allergens [safeDiabetesRecipe] lunchTargets
    [] ["Italian"] [] ["peanut"] 5
  have hcand : candidateSet [safeDiabetesRecipe] lunchTargets [] ["Italian"] [] ["peanut"]
      = [safeDiabetesRecipe] := by decide
  have hrec : recommend [safeDiabetesRecipe] lunchTargets [] ["Italian"] [] ["peanut"] 5
      = [scoreRow safeDiabetesRecipe lunchTargets []] := by
    unfold recommend
    rw [hcand]
    rfl
  have hmem : scoreRow safeDiabetesRecipe lunchTargets [] ∈
      recommend [safeDiabetesRecipe] lunchTargets [] ["Italian"] [] ["peanut"] 5 := by
    rw [hrec]; exact List.mem_singleton.mpr rfl
  ⟨h.1 (by decide), h.2 (scoreRow safeDiabetesRecipe lunchTargets []) hmem⟩

/-! ### diet_engine.py -/

/-- Python's `round()` (banker's rounding, half to even) on an exact rational. -/
def roundHalfEven (x : ℚ) : ℤ :=
  if x - ⌊x⌋ < 1/2 then ⌊x⌋
  else if 1/2 < x - ⌊x⌋ then ⌊x⌋ + 1
  else if ⌊x⌋ % 2 = 0 then ⌊x⌋ else ⌊x⌋ + 1

/-- Python's `round(x, 2)`. -/
def round2 (x : ℚ) : ℚ := (roundHalfEven (x * 100) : ℚ) / 100

/-- Python's `int()` on a float: truncation toward zero. -/
def pyInt (x : ℚ) : ℤ := if 0 ≤ x then ⌊x⌋ else -⌊-x⌋

/-- `DietEngine.calculate_bmr` (Mifflin-St Jeor; any gender whose upper-case
form is not `"M"` takes the female branch). -/
def calculate_bmr (age : ℚ) (gender : String) (weight_kg height_cm : ℚ) : ℚ :=
  if upperStr gender == "M" then
    round2 (10 * weight_kg + 6.25 * height_cm - 5 * age + 5)
  else
    round2 (10 * weight_kg + 6.25 * height_cm - 5 * age - 161)

/-- The `multipliers` dict of `calculate_tdee`. -/
def activityMultipliers : String → Option ℚ
  | "sedentary" => some 1.2
  | "lightly_active" => some 1.375
  | "moderately_active" => some 1.55
  | "very_active" => some 1.725
  | "extra_active" => some 1.9
  | _ => none

/-- `DietEngine.calculate_tdee` (`multipliers.get(activity_level, 1.2)`). -/
def calculate_tdee (bmr : ℚ) (activity_level : String) : ℚ :=
  round2 (bmr * ((activityMultipliers activity_level).getD 1.2))

/-- The base (protein, carbs, fat) percentage triple of `calculate_macros`,
selected by goal and vegetarian-vs-not diet type. -/
def baseMacroSplit (goal diet_type : String) : ℚ × ℚ × ℚ :=
  if goal == "weight_loss" then
    if diet_type == "Vegetarian" || diet_type == "Vegan" then (0.20, 0.50, 0.30)
    else (0.30, 0.40, 0.30)
  else if goal == "muscle_gain" then
    if diet_type == "Vegetarian" || diet_type == "Vegan" then (0.25, 0.50, 0.25)
    else (0.35, 0.45, 0.20)
  else (0.20, 0.50, 0.30)

/-- The percentage part of `DietEngine.calculate_macros` (lines 38-81): base
split by (goal, vegetarian-or-vegan), additive medical adjustments, and the
final carbs correction when the sum drifts beyond the 0.01 tolerance. -/
def macroPercentages (goal : String) (medical_conditions : List String)
    (diet_type : String) : ℚ × ℚ × ℚ :=
  let base := baseMacroSplit goal diet_type
  let protein_pct := base.1
  let carbs_pct := base.2.1
  let fat_pct := base.2.2
  let diabetic := medical_conditions.contains "diabetes" ||
    medical_conditions.contains "pre_diabetes"
  let carbs_pct := if diabetic then carbs_pct - 0.10 else carbs_pct
  let fat_pct := if diabetic then fat_pct + 0.10 else fat_pct
  let kidney := medical_conditions.contains "kidney_disease"
  let protein_pct := if kidney then protein_pct - 0.10 else protein_pct
  let carbs_pct := if kidney then carbs_pct + 0.10 else carbs_pct
  let hearty := medical_conditions.contains "heart_disease" ||
    medical_conditions.contains "high_cholesterol"
  let fat_pct := if hearty then fat_pct - 0.05 else fat_pct
  let carbs_pct := if hearty then carbs_pct + 0.05 else carbs_pct
  let total_pct := protein_pct + carbs_pct + fat_pct
  let carbs_pct := if 0.01 < |total_pct - 1.0| then 1.0 - protein_pct - fat_pct else carbs_pct
  (protein_pct, carbs_pct, fat_pct)

/-- The dict returned by `DietEngine.calculate_macros`. -/
structure Macros where
  protein_g : ℤ
  carbs_g : ℤ
  fat_g : ℤ
  protein_percent : ℤ
  carbs_percent : ℤ
  fat_percent : ℤ
  deriving DecidableEq, Repr

/-- `DietEngine.calculate_macros`: percentages, then grams at 4/4/9 kcal per
gram, each rounded independently; the percent fields are `int(pct * 100)`. -/
def calculate_macros (target_calories : ℚ) (goal : String)
    (medical_conditions : List String) (diet_type : String) : Macros :=
  let pct := macroPercentages goal medical_conditions diet_type
  let protein_pct := pct.1
  let carbs_pct := pct.2.1
  let fat_pct := pct.2.2
  { protein_g := roundHalfEven (target_calories * protein_pct / 4)
    carbs_g := roundHalfEven (target_calories * carbs_pct / 4)
    fat_g := roundHalfEven (target_calories * fat_pct / 9)
    protein_percent := pyInt (protein_pct * 100)
    carbs_percent := pyInt (carbs_pct * 100)
    fat_percent := pyInt (fat_pct * 100) }

/-- The user profile record consumed by `generate_personalized_plan`. -/
structure UserProfile where
  age : ℚ
  gender : String
  weight_kg : ℚ
  height_cm : ℚ
  activity_level : String
  goal : String
  medical_conditions : List String := []
  diet_type : String := "Vegetarian"
  deriving DecidableEq, Repr

structure MealMacros where
  calories : ℤ
  protein_g : ℤ
  carbs_g : ℤ
  fat_g : ℤ
  deriving DecidableEq, Repr

structure Plan where
  bmr : ℚ
  tdee : ℚ
  target_calories : ℤ
  daily_macros : Macros
  breakfast : MealMacros
  lunch : MealMacros
  dinner : MealMacros
  snacks : MealMacros
  goal : String
  deriving DecidableEq, Repr

/-- One meal entry of the breakdown: daily values times the meal share, each
value rounded independently. -/
def mealShare (target_calories : ℤ) (m : Macros) (share : ℚ) : MealMacros :=
  { calories := roundHalfEven (target_calories * share)
    protein_g := roundHalfEven (m.protein_g * share)
    carbs_g := roundHalfEven (m.carbs_g * share)
    fat_g := roundHalfEven (m.fat_g * share) }

/-- Step 3 of `generate_personalized_plan`: the goal adjustment applied to
the TDEE. -/
def goalAdjustedCalories (p : UserProfile) : ℚ :=
  let bmr := calculate_bmr p.age p.gender p.weight_kg p.height_cm
  let tdee := calculate_tdee bmr p.activity_level
  if p.goal == "weight_loss" then tdee - 500
  else if p.goal == "muscle_gain" then tdee + 300
  else tdee

/-- `DietEngine.generate_personalized_plan`. -/
def generate_personalized_plan (p : UserProfile) : Plan :=
  let bmr := calculate_bmr p.age p.gender p.weight_kg p.height_cm
  let tdee := calculate_tdee bmr p.activity_level
  let tc := goalAdjustedCalories p
  -- step 4: safety minimums (the non-'F' branch applies the 1500 floor)
  let tc := if upperStr p.gender == "F" then max 1200 tc else max 1500 tc
  let target_calories := roundHalfEven tc
  let macros := calculate_macros (target_calories : ℚ) p.goal p.medical_conditions p.diet_type
  { bmr := bmr
    tdee := tdee
    target_calories := target_calories
    daily_macros := macros
    breakfast := mealShare target_calories macros 0.25
    lunch := mealShare target_calories macros 0.35
    dinner := mealShare target_calories macros 0.30
    snacks := mealShare target_calories macros 0.10
    goal := p.goal }

/-! ### C3, C10: calorie floors and gender branching -/

theorem le_roundHalfEven (n : ℤ) (x : ℚ) (h : (n : ℚ) ≤ x) : n ≤ roundHalfEven x := by
  have hf : n ≤ ⌊x⌋ := Int.le_floor.mpr h
  unfold roundHalfEven
  split_ifs <;> omega

theorem target_calories_eq (p : UserProfile) :
    (generate_personalized_plan p).target_calories =
      roundHalfEven (if upperStr p.gender == "F"
        then max 1200 (goalAdjustedCalories p)
        else max 1500 (goalAdjustedCalories p)) := rfl

/-- C3: the plan's target calories respect the safety floors: at least 1200
for a female profile (gender upper-cases to `"F"`), at least 1500 for a male
profile (gender upper-cases to `"M"`), whatever the goal, activity level or
TDEE. -/
theorem plan_respects_calorie_floors (p : UserProfile) :
    (upperStr p.gender = "F" → 1200 ≤ (generate_personalized_plan p).target_calories) ∧
    (upperStr p.gender = "M" → 1500 ≤ (generate_personalized_plan p).target_calories) := by
  constructor
  · intro hF
    rw [target_calories_eq, hF]
    rw [if_pos (by simp)]
    refine le_roundHalfEven 1200 _ ?_
    push_cast
    exact le_max_left _ _
  · intro hM
    rw [target_calories_eq, hM]
    rw [if_neg (by simp)]
    refine le_roundHalfEven 1500 _ ?_
    push_cast
    exact le_max_left _ _

def femaleProfile : UserProfile :=
  { age := 25, gender := "F", weight_kg := 60, height_cm := 165,
    activity_level := "moderately_active", goal := "maintenance" }

def maleProfile : UserProfile :=
  { age := 55, gender := "m", weight_kg := 90, height_cm := 175,
    activity_level := "sedentary", goal := "weight_loss" }

theorem plan_respects_calorie_floors_witness :
    1200 ≤ (generate_personalized_plan femaleProfile).target_calories ∧
    1500 ≤ (generate_personalized_plan maleProfile).target_calories :=
  ⟨(plan_respects_calorie_floors femaleProfile).1 (by decide),
   (plan_respects_calorie_floors maleProfile).2 (by decide)⟩

/-- C10: a gender that upper-cases to neither `"M"` nor `"F"` gets the female
Mifflin-St Jeor branch of `calculate_bmr` (same result as gender `"F"`) but
the male 1500-calorie floor in `generate_personalized_plan`. -/
theorem nonbinary_gender_female_bmr_male_floor (p : UserProfile)
    (hM : upperStr p.gender ≠ "M") (hF : upperStr p.gender ≠ "F") :
    calculate_bmr p.age p.gender p.weight_kg p.height_cm
      = calculate_bmr p.age "F" p.weight_kg p.height_cm ∧
    1500 ≤ (generate_personalized_plan p).target_calories := by
  constructor
  · unfold calculate_bmr
    rw [if_neg (by simpa using hM), if_neg (by decide)]
  · rw [target_calories_eq]
    rw [if_neg (by simpa using hF)]
    refine le_roundHalfEven 1500 _ ?_
    push_cast
    exact le_max_left _ _

def nonbinaryProfile : UserProfile :=
  { age := 30, gender := "X", weight_kg := 70, height_cm := 170,
    activity_level := "lightly_active", goal := "muscle_gain" }

theorem nonbinary_gender_female_bmr_male_floor_witness :
    calculate_bmr nonbinaryProfile.age nonbinaryProfile.gender
        nonbinaryProfile.weight_kg nonbinaryProfile.height_cm
      = calculate_bmr nonbinaryProfile.age "F"
        nonbinaryProfile.weight_kg nonbinaryProfile.height_cm ∧
    1500 ≤ (generate_personalized_plan nonbinaryProfile).target_calories :=
  nonbinary_gender_female_bmr_male_floor nonbinaryProfile (by decide) (by decide)

/-! ### C4: macro percentages always sum to exactly 1 -/

/-- C4: for every goal, diet type and combination of medical conditions, the
three percentages computed by `calculate_macros`'s percentage logic sum to
exactly 1 after the calculation. -/
theorem macro_percentages_sum_to_one (goal : String) (medical_conditions : List String)
    (diet_type : String) :
    (macroPercentages goal medical_conditions diet_type).1 +
      (macroPercentages goal medical_conditions diet_type).2.1 +
      (macroPercentages goal medical_conditions diet_type).2.2 = 1 := by
  have hbase : (baseMacroSplit goal diet_type).1 + (baseMacroSplit goal diet_type).2.1 +
      (baseMacroSplit goal diet_type).2.2 = 1 := by
    unfold baseMacroSplit
    split_ifs <;> norm_num
  unfold macroPercentages
  dsimp only
  split_ifs <;> linarith [hbase]

/-! ### collaborative_models.py -/

/-- `{id: idx}` dictionary lookup (`dict.get`): the position of an id in the
id list. -/
def indexIn (x : ℕ) : List ℕ → Option ℕ
  | [] => none
  | y :: ys => if y = x then some 0 else (indexIn x ys).map (· + 1)

theorem indexIn_eq_none_of_not_mem {x : ℕ} {l : List ℕ} (h : x ∉ l) :
    indexIn x l = none := by
  induction l with
  | nil => rfl
  | cons y ys ih =>
    have hy : y ≠ x := fun e => h (e ▸ List.mem_cons_self y ys)
    unfold indexIn
    rw [if_neg hy, ih (fun hm => h (List.mem_cons_of_mem y hm))]
    rfl

/-- `np.dot` on vectors (trailing entries of the longer vector are dropped,
as happens with equal-dimension trained artifacts). -/
def dotProd (a b : List ℚ) : ℚ := ((a.zip b).map (fun p => p.1 * p.2)).sum

/-- Column `j` of a row-major matrix (`M[:, j]`). -/
def matCol (m : List (List ℚ)) (j : ℕ) : List ℚ := m.map (fun row => row.getD j 0)

/-- `np.dot(v, M)` (vector-matrix product). -/
def vecMat (v : List ℚ) (m : List (List ℚ)) : List ℚ :=
  (List.range (m.headD []).length).map (fun j => dotProd v (matCol m j))

/-- `np.clip(x, lo, hi)`. -/
def clip (x lo hi : ℚ) : ℚ := min (max x lo) hi

theorem clip_bounds (x : ℚ) : 1 ≤ clip x 1 5 ∧ clip x 1 5 ≤ 5 :=
  ⟨le_min (le_max_right x 1) (by norm_num), min_le_right _ 5⟩

/-- `SimpleSVD`: the trained artifacts. -/
structure SimpleSVD where
  U : List (List ℚ)
  sigma : List (List ℚ)
  Vt : List (List ℚ)
  user_means : List ℚ
  user_ids : List ℕ
  recipe_ids : List ℕ
  deriving Repr

/-- `SimpleSVD.predict`: `U[u] · Σ · Vt[:, i] + user_means[u]`, clipped to
`[1, 5]`; `3.5` when either id is unknown (the `try/except` fallback has no
reachable counterpart here: the embedded accesses are total). -/
def SimpleSVD.predict (m : SimpleSVD) (user_id recipe_id : ℕ) : ℚ :=
  match indexIn user_id m.user_ids, indexIn recipe_id m.recipe_ids with
  | some user_idx, some recipe_idx =>
    let pred := dotProd (vecMat (m.U.getD user_idx []) m.sigma) (matCol m.Vt recipe_idx)
    clip (pred + m.user_means.getD user_idx 0) 1 5
  | _, _ => 3.5

/-- `SimpleUserCF`: rating matrix (rows = users, columns = recipes) and the
user-user similarity matrix, both labelled by `users` / `items`. -/
structure SimpleUserCF where
  users : List ℕ
  items : List ℕ
  rating_matrix : List (List ℚ)
  similarity_matrix : List (List ℚ)
  k : ℕ
  deriving Repr

/-- The mean over the non-zero entries of one column
(`replace(0, nan).mean()` for that column); `none` when the column has no
non-zero entry (an all-NaN column, which pandas then skips). -/
def nonzeroMean (col : List ℚ) : Option ℚ :=
  let nz := col.filter (fun x => decide (x ≠ 0))
  if nz.isEmpty then none else some (nz.sum / nz.length)

/-- Column `j` of the rating matrix. -/
def ratingColumn (m : SimpleUserCF) (j : ℕ) : List ℚ :=
  m.rating_matrix.map (fun row => row.getD j 0)

/-- The per-column non-zero means that `rating_matrix.replace(0, np.nan)
.mean()` produces (NaN columns dropped, as the outer `.mean()` skips them). -/
def colMeans (m : SimpleUserCF) : List ℚ :=
  (List.range m.items.length).filterMap (fun j => nonzeroMean (ratingColumn m j))

/-- `self.global_mean = rating_matrix.replace(0, np.nan).mean().mean()`: the
mean of the per-column non-zero means — NOT the mean over all non-zero
entries. -/
def SimpleUserCF.global_mean (m : SimpleUserCF) : ℚ :=
  (colMeans m).sum / (colMeans m).length

/-- What the claim says the fallback is: the "global mean computed over all
non-zero rating entries". Stated from the claim's words, for comparison. -/
def globalMeanAllNonzeroSpec (m : SimpleUserCF) : ℚ :=
  let nz := m.rating_matrix.flatten.filter (fun x => decide (x ≠ 0))
  nz.sum / nz.length

/-- `SimpleUserCF.predict`: similarity column for the user, sorted
descending, entries `[1 : k+1]`, neighbours with positive similarity and a
non-zero rating for the item, similarity-weighted average clipped to
`[1, 5]`; the stored global mean on an unknown id or no qualifying
neighbour. -/
def SimpleUserCF.predict (m : SimpleUserCF) (user_id recipe_id : ℕ) : ℚ :=
  match indexIn user_id m.users, indexIn recipe_id m.items with
  | some uIdx, some iIdx =>
    let simPairs := m.users.zip (m.similarity_matrix.map (fun row => row.getD uIdx 0))
    let similar_users := ((sortDescBy (fun p : ℕ × ℚ => p.2) simPairs).drop 1).take m.k
    let ratingsWeights := similar_users.filterMap (fun p =>
      if 0 < p.2 then
        let rating := (m.rating_matrix.getD ((indexIn p.1 m.users).getD 0) []).getD iIdx 0
        if 0 < rating then some (rating, p.2) else none
      else none)
    if ratingsWeights.isEmpty then m.global_mean
    else
      clip (((ratingsWeights.map (fun p => p.1 * p.2)).sum) /
        ((ratingsWeights.map (fun p => p.2)).sum)) 1 5
  | _, _ => m.global_mean

/-! ### C2: prediction range and cold-start fallbacks -/

theorem mean_bounds {l : List ℚ} (hne : l ≠ []) (h : ∀ x ∈ l, 1 ≤ x ∧ x ≤ 5) :
    1 ≤ l.sum / l.length ∧ l.sum / l.length ≤ 5 := by
  have hlen : 0 < (l.length : ℚ) := by
    exact_mod_cast List.length_pos.mpr hne
  constructor
  · rw [le_div_iff₀ hlen]
    have := List.card_nsmul_le_sum l 1 (fun x hx => (h x hx).1)
    rw [nsmul_eq_mul] at this
    linarith
  · rw [div_le_iff₀ hlen]
    have := List.sum_le_card_nsmul l 5 (fun x hx => (h x hx).2)
    rw [nsmul_eq_mul] at this
    linarith

theorem getD_zero_or_mem (row : List ℚ) (j : ℕ) :
    row.getD j 0 = 0 ∨ row.getD j 0 ∈ row := by
  induction row generalizing j with
  | nil => left; rfl
  | cons x xs ih =>
    cases j with
    | zero => right; exact List.mem_cons_self x xs
    | succ n =>
      rcases ih n with hz | hm
      · left; exact hz
      · right; exact List.mem_cons_of_mem x hm

theorem mem_colMeans_bounds {m : SimpleUserCF}
    (hr : ∀ row ∈ m.rating_matrix, ∀ x ∈ row, x = 0 ∨ (1 ≤ x ∧ x ≤ 5))
    {q : ℚ} (hq : q ∈ colMeans m) : 1 ≤ q ∧ q ≤ 5 := by
  obtain ⟨j, _, hjq⟩ := List.mem_filterMap.mp hq
  unfold nonzeroMean at hjq
  set nz := (ratingColumn m j).filter (fun x => decide (x ≠ 0)) with hnz
  by_cases hemp : nz.isEmpty
  · rw [if_pos hemp] at hjq; cases hjq
  · rw [if_neg hemp] at hjq
    have hq' : q = nz.sum / nz.length := by injection hjq with h; exact h.symm
    have hnzb : ∀ x ∈ nz, 1 ≤ x ∧ x ≤ 5 := by
      intro x hx
      rw [hnz, List.mem_filter] at hx
      rcases hx with ⟨hxcol, hxne⟩
      have hxne' : x ≠ 0 := by simpa using hxne
      unfold ratingColumn at hxcol
      obtain ⟨row, hrow, hrx⟩ := List.mem_map.mp hxcol
      rcases getD_zero_or_mem row j with hz | hm
      · exact absurd (hrx ▸ hz) hxne'
      · rcases hr row hrow x (hrx ▸ hm) with hz | hb
        · exact absurd hz hxne'
        · exact hb
    have hne : nz ≠ [] := by
      intro he
      rw [he] at hemp
      exact hemp rfl
    rw [hq']
    exact mean_bounds hne hnzb

theorem global_mean_bounds {m : SimpleUserCF}
    (hr : ∀ row ∈ m.rating_matrix, ∀ x ∈ row, x = 0 ∨ (1 ≤ x ∧ x ≤ 5))
    (hne : colMeans m ≠ []) :
    1 ≤ m.global_mean ∧ m.global_mean ≤ 5 :=
  mean_bounds hne (fun _ hq => mem_colMeans_bounds hr hq)

/-- C2 counterexample: for the concrete trained `cfCounter` model, an unseen
user gets the stored fallback `3`, the mean of the per-column means — while
the mean over all non-zero rating entries is `7/3`, so the fallback is not
"the global mean computed over all non-zero rating entries" as claimed. -/
def cfCounter : SimpleUserCF :=
  { users := [1, 2]
    items := [10, 20]
    rating_matrix := [[1, 5], [1, 0]]
    similarity_matrix := [[1, 0], [0, 1]]
    k := 20 }

theorem userCF_fallback_is_mean_of_column_means :
    cfCounter.predict 99 10 = cfCounter.global_mean ∧
    cfCounter.global_mean = 3 ∧
    globalMeanAllNonzeroSpec cfCounter = 7/3 ∧
    (3 : ℚ) ≠ 7/3 := by
  have hcm : colMeans cfCounter = [1, 5] := by
    show List.filterMap _ (List.range 2) = [1, 5]
    rw [show List.range 2 = [0, 1] from rfl]
    norm_num [List.filterMap, nonzeroMean, ratingColumn, cfCounter]
  refine ⟨rfl, ?_, ?_, by norm_num⟩
  · unfold SimpleUserCF.global_mean
    rw [hcm]
    norm_num
  · unfold globalMeanAllNonzeroSpec
    norm_num [cfCounter]

/-- C2 (amended): both models return a value in `[1, 5]` for every input pair
(for `SimpleUserCF` provided the trained matrix holds ratings in
`{0} ∪ [1, 5]` with at least one rated column, so that its stored fallback is
well-defined); an unseen user or recipe id makes `SimpleSVD` return exactly
`3.5`, and makes `SimpleUserCF` return its stored `global_mean` — the mean
of the per-column non-zero means, not the mean over all non-zero entries. -/
theorem predict_range_and_cold_start :
    (∀ (m : SimpleSVD) (uid rid : ℕ),
      1 ≤ m.predict uid rid ∧ m.predict uid rid ≤ 5) ∧
    (∀ (m : SimpleSVD) (uid rid : ℕ),
      uid ∉ m.user_ids ∨ rid ∉ m.recipe_ids → m.predict uid rid = 3.5) ∧
    (∀ (m : SimpleUserCF) (uid rid : ℕ),
      (∀ row ∈ m.rating_matrix, ∀ x ∈ row, x = 0 ∨ (1 ≤ x ∧ x ≤ 5)) →
      colMeans m ≠ [] →
      1 ≤ m.predict uid rid ∧ m.predict uid rid ≤ 5) ∧
    (∀ (m : SimpleUserCF) (uid rid : ℕ),
      uid ∉ m.users ∨ rid ∉ m.items → m.predict uid rid = m.global_mean) := by
  refine ⟨?_, ?_, ?_, ?_⟩
  · intro m uid rid
    unfold SimpleSVD.predict
    rcases h1 : indexIn uid m.user_ids with _ | u
    · exact ⟨by norm_num, by norm_num⟩
    · rcases h2 : indexIn rid m.recipe_ids with _ | i
      · exact ⟨by norm_num, by norm_num⟩
      · exact clip_bounds _
  · intro m uid rid h
    unfold SimpleSVD.predict
    rcases h with h | h
    · rw [indexIn_eq_none_of_not_mem h]
    · rcases h1 : indexIn uid m.user_ids with _ | u
      · rfl
      · rw [indexIn_eq_none_of_not_mem h]
  · intro m uid rid hr hne
    have hg := global_mean_bounds hr hne
    unfold SimpleUserCF.predict
    rcases h1 : indexIn uid m.users with _ | u
    · exact hg
    · rcases h2 : indexIn rid m.items with _ | i
      · exact hg
      · dsimp only
        split
        · exact hg
        · exact clip_bounds _
  · intro m uid rid h
    unfold SimpleUserCF.predict
    rcases h with h | h
    · rw [indexIn_eq_none_of_not_mem h]
    · rcases h1 : indexIn uid m.users with _ | u
      · rfl
      · rw [indexIn_eq_none_of_not_mem h]

/-- A small trained SVD model for the witness. -/
def svdSmall : SimpleSVD :=
  { U := [[1]]
    sigma := [[2]]
    Vt := [[1]]
    user_means := [4]
    user_ids := [1]
    recipe_ids := [10] }

theorem predict_range_and_cold_start_witness :
    (1 ≤ svdSmall.predict 1 10 ∧ svdSmall.predict 1 10 ≤ 5) ∧
    svdSmall.predict 2 10 = 3.5 ∧
    (1 ≤ cfCounter.predict 99 10 ∧ cfCounter.predict 99 10 ≤ 5) ∧
    cfCounter.predict 99 10 = cfCounter.global_mean := by
  have h := predict_range_and_cold_start
  have hcm : colMeans cfCounter = [1, 5] := by
    show List.filterMap _ (List.range 2) = [1, 5]
    rw [show List.range 2 = [0, 1] from rfl]
    norm_num [List.filterMap, nonzeroMean, ratingColumn, cfCounter]
  refine ⟨h.1 svdSmall 1 10, h.2.1 svdSmall 2 10 (Or.inl (by decide)), ?_, ?_⟩
  · refine h.2.2.1 cfCounter 99 10 (by decide) ?_
    rw [hcm]
    simp
  · exact h.2.2.2 cfCounter 99 10 (Or.inl (by decide))

/-! ### hybrid_recommender.py -/

/-- The loaded TIER 3 artifact: one of the two collaborative models. -/
inductive CollabModel
  | svd : SimpleSVD → CollabModel
  | userCF : SimpleUserCF → CollabModel

/-- `self.tier3_model.predict(user_id, recipe_id)`. -/
def CollabModel.predict : CollabModel → ℕ → ℕ → ℚ
  | .svd m, u, i => m.predict u i
  | .userCF m, u, i => m.predict u i

/-- One output row of `recommend_hybrid`: a TIER 2 row plus the two added
columns. -/
structure HybridRow where
  row : RecRow
  tier3_score : ℚ
  hybrid_score : ℚ
  deriving DecidableEq, Repr

/-- `HybridRecommender.recommend_hybrid`.  `tier3_model = none` models a
failed startup load (`has_tier3 = False`).  The TIER 2 result does not carry
an `Srno` column, so `recipe.name` — the pandas row label, our `index` —
keys the prediction. -/
def recommend_hybrid (recipes : List Recipe) (tier3_model : Option CollabModel)
    (user_id : Option ℕ) (user_targets : UserTargets) (medical_conditions : List String)
    (top_n : ℕ) : List HybridRow :=
  -- STEP 1: TIER 2 candidates (over-fetch 50, no preference arguments)
  let tier2_results := recommend recipes user_targets medical_conditions [] [] [] 50
  if tier2_results.isEmpty then []
  else
    -- STEP 2: TIER 3 scores, or the neutral 50.0 without a model or user
    let withT3 : List (RecRow × ℚ) :=
      match tier3_model, user_id with
      | some model, some uid =>
        tier2_results.map (fun row => (row, (model.predict uid row.index - 1) / 4 * 100))
      | _, _ => tier2_results.map (fun row => (row, (50.0 : ℚ)))
    -- STEP 3: 70/30 blend; STEP 4: sort descending and truncate
    let blended := withT3.map (fun p =>
      ({ row := p.1, tier3_score := p.2,
         hybrid_score := p.1.match_score * 0.7 + p.2 * 0.3 } : HybridRow))
    (sortDescBy (fun h : HybridRow => h.hybrid_score) blended).take top_n

/-! ### C6: the hybrid blend formula, ordering and truncation -/

/-- C6: every returned candidate's `hybrid_score` is exactly
`match_score * 0.7 + tier3_score * 0.3`, the returned list is sorted in
descending `hybrid_score` order, and it is the TIER 2 candidate list
truncated to `top_n` entries. -/
theorem hybrid_blend_formula_sorted_truncated (recipes : List Recipe)
    (tier3_model : Option CollabModel) (user_id : Option ℕ) (user_targets : UserTargets)
    (medical_conditions : List String) (top_n : ℕ) :
    (∀ h ∈ recommend_hybrid recipes tier3_model user_id user_targets
        medical_conditions top_n,
      h.hybrid_score = h.row.match_score * 0.7 + h.tier3_score * 0.3 ∧
      h.row ∈ recommend recipes user_targets medical_conditions [] [] [] 50) ∧
    (recommend_hybrid recipes tier3_model user_id user_targets
        medical_conditions top_n).Pairwise
      (fun a b => b.hybrid_score ≤ a.hybrid_score) ∧
    (recommend_hybrid recipes tier3_model user_id user_targets
        medical_conditions top_n).length =
      min top_n (recommend recipes user_targets medical_conditions [] [] [] 50).length := by
  unfold recommend_hybrid
  by_cases hemp :
    (recommend recipes user_targets medical_conditions [] [] [] 50).isEmpty = true
  · rw [if_pos hemp]
    have hz : (recommend recipes user_targets medical_conditions [] [] [] 50).length = 0 :=
      List.length_eq_zero.mpr (List.isEmpty_iff.mp hemp)
    refine ⟨by simp, by simp, ?_⟩
    rw [hz]
    simp
  · rw [if_neg hemp]
    dsimp only
    refine ⟨?_, ?_, ?_⟩
    · intro h hmem
      have h1 := List.take_subset _ _ hmem
      rw [mem_sortDescBy] at h1
      obtain ⟨p, hp, hfp⟩ := List.mem_map.mp h1
      have hrow : p.1 ∈ recommend recipes user_targets medical_conditions [] [] [] 50 := by
        rcases tier3_model with _ | model
        · obtain ⟨row, hr2, hpr⟩ := List.mem_map.mp hp
          rw [← hpr]
          exact hr2
        · rcases user_id with _ | uid
          · obtain ⟨row, hr2, hpr⟩ := List.mem_map.mp hp
            rw [← hpr]
            exact hr2
          · obtain ⟨row, hr2, hpr⟩ := List.mem_map.mp hp
            rw [← hpr]
            exact hr2
      rw [← hfp]
      exact ⟨rfl, hrow⟩
    · exact (pairwise_sortDescBy _ _).sublist (List.take_sublist _ _)
    · rw [List.length_take, length_sortDescBy, List.length_map]
      congr 1
      rcases tier3_model with _ | model
      · rw [List.length_map]
      · rcases user_id with _ | uid
        · rw [List.length_map]
        · rw [List.length_map]

/-! ### C8: without a model or user id the blender degrades to a neutral 50 -/

theorem tier3_defaults_to_50 {tier2 : List RecRow} {n : ℕ} {h : HybridRow}
    (hmem : h ∈ (sortDescBy (fun hh : HybridRow => hh.hybrid_score)
      ((tier2.map (fun row => (row, (50.0 : ℚ)))).map (fun p =>
        ({ row := p.1, tier3_score := p.2,
           hybrid_score := p.1.match_score * 0.7 + p.2 * 0.3 } : HybridRow)))).take n) :
    h.tier3_score = 50.0 ∧ h.hybrid_score = h.row.match_score * 0.7 + 50.0 * 0.3 := by
  have h1 := List.take_subset _ _ hmem
  rw [mem_sortDescBy] at h1
  obtain ⟨p, hp, hfp⟩ := List.mem_map.mp h1
  obtain ⟨row, _, hpr⟩ := List.mem_map.mp hp
  rw [← hfp, ← hpr]
  exact ⟨rfl, rfl⟩

/-- C8: if the collaborative model failed to load, or no user id is supplied,
every candidate's `tier3_score` is exactly 50.0 and its hybrid score is the
content score blended with the neutral midpoint — content-only degradation,
with the per-request computation total (never raising). -/
theorem degraded_blender_neutral_tier3 (recipes : List Recipe)
    (tier3_model : Option CollabModel) (user_id : Option ℕ) (user_targets : UserTargets)
    (medical_conditions : List String) (top_n : ℕ)
    (hdeg : tier3_model = none ∨ user_id = none) :
    ∀ h ∈ recommend_hybrid recipes tier3_model user_id user_targets
        medical_conditions top_n,
      h.tier3_score = 50.0 ∧
      h.hybrid_score = h.row.match_score * 0.7 + 50.0 * 0.3 := by
  intro h hmem
  unfold recommend_hybrid at hmem
  by_cases hemp :
    (recommend recipes user_targets medical_conditions [] [] [] 50).isEmpty = true
  · rw [if_pos hemp] at hmem
    cases hmem
  · rw [if_neg hemp] at hmem
    rcases hdeg with rfl | rfl
    · exact tier3_defaults_to_50 hmem
    · rcases tier3_model with _ | model
      · exact tier3_defaults_to_50 hmem
      · exact tier3_defaults_to_50 hmem

/-- The single hybrid row produced for the one-recipe witness catalog when no
model is loaded. -/
def hybridWitnessRow : HybridRow :=
  { row := scoreRow safeDiabetesRecipe lunchTargets []
    tier3_score := (50.0 : ℚ)
    hybrid_score := (scoreRow safeDiabetesRecipe lunchTargets []).match_score * 0.7
      + (50.0 : ℚ) * 0.3 }

theorem recommend_hybrid_concrete :
    recommend_hybrid [safeDiabetesRecipe] none (some 1) lunchTargets [] 3
      = [hybridWitnessRow] := by
  have hcand : candidateSet [safeDiabetesRecipe] lunchTargets [] [] [] []
      = [safeDiabetesRecipe] := by decide
  have htier2 : recommend [safeDiabetesRecipe] lunchTargets [] [] [] [] 50
      = [scoreRow safeDiabetesRecipe lunchTargets []] := by
    unfold recommend
    rw [hcand]
    rfl
  unfold recommend_hybrid
  rw [htier2]
  rfl

theorem hybrid_blend_formula_sorted_truncated_witness :
    hybridWitnessRow.hybrid_score =
      hybridWitnessRow.row.match_score * 0.7 + hybridWitnessRow.tier3_score * 0.3 ∧
    hybridWitnessRow.row ∈ recommend [safeDiabetesRecipe] lunchTargets [] [] [] [] 50 :=
  (hybrid_blend_formula_sorted_truncated [safeDiabetesRecipe] none (some 1)
      lunchTargets [] 3).1 hybridWitnessRow
    (by rw [recommend_hybrid_concrete]; exact List.mem_singleton.mpr rfl)

theorem degraded_blender_neutral_tier3_witness :
    hybridWitnessRow.tier3_score = 50.0 ∧
    hybridWitnessRow.hybrid_score =
      hybridWitnessRow.row.match_score * 0.7 + 50.0 * 0.3 :=
  degraded_blender_neutral_tier3 [safeDiabetesRecipe] none (some 1) lunchTargets [] 3
    (Or.inl rfl) hybridWitnessRow
    (by rw [recommend_hybrid_concrete]; exact List.mem_singleton.mpr rfl)

end Wellness
